import Mathlib

/-!
Verification development for the SQL query validator of the smart-home
database management tool (source file `src/查询语句的检查.py`, class
`SQLQueryValidator`).  The validator parses a SQL query with sqlglot and runs
a battery of semantic checks, accumulating diagnostics into a result
dictionary `{"is_valid": bool, "errors": [...], "suggestions": [...]}`.

The embedding below models:
  * the schema catalog `self.metadata` (table → column → declared type);
  * the sqlglot AST fragments the validator inspects (`exp.Select`,
    `exp.Column`, `exp.Literal`, `exp.Null`, `exp.Identifier`, `exp.Binary`,
    `exp.AggFunc`, `exp.Alias`, `exp.Star`, `exp.Table`, `exp.Join`);
  * each rule method as the ordered list of diagnostics it appends, applied
    to the threaded result via `addDiag`, which captures the source's fixed
    mutation pattern `result["is_valid"] = False; result["errors"].append(d)`
    (the rules only ever append to `result` and never read it back, so a rule
    is fully described by the diagnostic list it emits, in emission order);
  * `validate` itself, including its behaviour when `sqlglot.parse_one`
    raises `ParseError` on a fresh validator instance (`self.parsed = None`).

Python-semantics notes used throughout (with the source line they justify):
  * sqlglot's `Expression.type` is the inferred data-type annotation
    (`self._type`); `parse_one` performs no type annotation, so every node of
    a freshly parsed tree has `type = None`.  It is never the operator name.
  * `exp.Is` (the `IS` comparison) subclasses `exp.Binary`, as do `exp.And` /
    `exp.Or` (via `Connector`), so `find_all(exp.Binary)` yields all of them.
  * A `USING (...)` list parses to `exp.Identifier` nodes, not `exp.Column`,
    so statement-wide `find_all(exp.Column)` does not include them.
  * `join.alias_or_name` delegates to the joined table: its alias if present,
    otherwise its name.
-/

namespace SmartHomeSQL

/-- Model of `self.metadata`: table name → list of (column name, declared type),
an insertion-ordered association list mirroring a Python dict of dicts
(`__init__` line 16, loaded by `_load_metadata`). -/
abbrev Catalog := List (String × List (String × String))

/-- Python `table_name in self.metadata` (lines 179, 216). -/
def catHasTable (md : Catalog) (t : String) : Bool :=
  (md.lookup t).isSome

/-- Python `self.metadata[table_name]`, defaulting to no columns for a table
that is absent (all uses are guarded by `catHasTable` in the source). -/
def catTableCols (md : Catalog) (t : String) : List (String × String) :=
  (md.lookup t).getD []

/-- Python `col_name in self.metadata[table_name]` (lines 179, 216). -/
def tableHasCol (md : Catalog) (t col : String) : Bool :=
  ((catTableCols md t).lookup col).isSome

/-- Python dict assignment `m[k] = v`: overwrite the value when the key is
present, otherwise append the new binding (insertion order preserved). -/
def dictInsert (m : List (String × String)) (k v : String) :
    List (String × String) :=
  if (m.lookup k).isSome then
    m.map (fun p => if p.1 = k then (k, v) else p)
  else
    m ++ [(k, v)]

/-- Binary operator tag of an `exp.Binary` node (the node's class:
`EQ`, `NEQ`, `Is`, `GT`, `And`, ...). -/
inductive BinOp where
  | eq | neq | lt | gt | le | ge | isOp | andOp | orOp | add | sub
deriving Repr, DecidableEq

/-- The sqlglot expression nodes inspected by the validator. A `column`
carries its table qualifier text (`col.table`, `""` when unqualified) and its
name (`col.name`); a `lit` carries `Literal.is_string` and the text
`Literal.this`. -/
inductive Expr where
  | column (table : String) (name : String)
  | lit (is_string : Bool) (this : String)
  | nullLit
  | ident (name : String)
  | star
  | binary (op : BinOp) (left : Expr) (right : Expr)
  | aggCall (fname : String) (args : List Expr)
  | aliased (this : Expr) (aliasTxt : String)
deriving Repr

/-- Test `isinstance(e, exp.Column)`. -/
def Expr.isColumn : Expr → Bool
  | .column _ _ => true
  | _ => false

mutual

/-- Model of `node.find_all(exp.Binary)`: every binary node in DFS preorder (the node
itself first, then its children in argument order), as sqlglot's `walk`
produces them. -/
def Expr.findBinaries : Expr → List Expr
  | .binary op l r => .binary op l r :: (l.findBinaries ++ r.findBinaries)
  | .aggCall _ args => findBinariesList args
  | .aliased t _ => t.findBinaries
  | _ => []

def findBinariesList : List Expr → List Expr
  | [] => []
  | e :: es => e.findBinaries ++ findBinariesList es

end

mutual

/-- Model of `node.find_all(exp.AggFunc)`: every aggregate-call node in DFS preorder. -/
def Expr.findAggs : Expr → List Expr
  | .binary _ l r => l.findAggs ++ r.findAggs
  | .aggCall f args => .aggCall f args :: findAggsList args
  | .aliased t _ => t.findAggs
  | _ => []

def findAggsList : List Expr → List Expr
  | [] => []
  | e :: es => e.findAggs ++ findAggsList es

end

mutual

/-- Model of `node.find_all(exp.Column)` in DFS preorder, each column paired with
whether its *direct* parent is an `exp.AggFunc` (the test
`isinstance(column.parent, exp.AggFunc)` at line 338).  The entry is
`(col.table, col.name, parent-是-AggFunc)`. -/
def Expr.findColumnsF (parentIsAgg : Bool) : Expr → List (String × String × Bool)
  | .column t n => [(t, n, parentIsAgg)]
  | .binary _ l r => l.findColumnsF false ++ r.findColumnsF false
  | .aggCall _ args => findColumnsListF args
  | .aliased t _ => t.findColumnsF false
  | _ => []

/-- Columns of the direct arguments of an aggregate call: each argument's
direct parent is the `AggFunc` node itself. -/
def findColumnsListF : List Expr → List (String × String × Bool)
  | [] => []
  | e :: es => e.findColumnsF true ++ findColumnsListF es

end

/-- An `exp.Table` reference: real name plus alias text (`""` if absent). -/
structure TableRef where
  name : String
  aliasTxt : String
deriving Repr, DecidableEq

/-- An `exp.Join` clause: the joined table (`join.this`), the join kind text
(`join.kind`, e.g. `""` or `"INNER"`), and the optional `on` / `using`
arguments.  A `USING` list is stored as the identifiers' names. -/
structure JoinClause where
  this : TableRef
  kind : String
  onCond : Option Expr
  usingCols : Option (List String)
deriving Repr

/-- The parts of a parsed `exp.Select` statement that the validator reads:
`parsed.expressions` (= `parsed.selects`, the select list),
`parsed.args.get("from")` (its table references), `parsed.args.get("joins")`,
`parsed.args.get("where")` (the condition under the `Where` node),
`parsed.args.get("group")` (the `Group` node's expressions) and
`parsed.args.get("having")` (the condition under the `Having` node). -/
structure SelectStmt where
  expressions : List Expr
  fromTables : Option (List TableRef)
  joins : List JoinClause
  whereCond : Option Expr
  groupExprs : Option (List Expr)
  havingCond : Option Expr
deriving Repr

/-- One diagnostic appended to `result["errors"]`.  Each constructor
corresponds to exactly one `append` site in the source and records the
identifiers interpolated into that site's message/suggestion strings:
  * `parseDiag`            — "语法错误" (SyntaxError), `validate` lines 60-66;
  * `missingFrom`          — "结构错误" (MissingFrom), lines 85-91;
  * `missingGroupBy`       — "结构错误" (MissingGroupBy), lines 107-113;
  * `incompleteGroupBy`    — "GROUP BY不完整", lines 122-128;
  * `missingJoinCondition` — "JOIN 错误" (missing ON/USING), lines 163-169;
  * `usingColumnNotFound`  — "列不存在" (USING column in no joined table),
                             lines 181-187;
  * `usingJoinError`       — "JOIN 错误" (USING column in one table only),
                             lines 188-194;
  * `onUnknownTable`       — "对象不存在" (ON references unjoined table),
                             lines 207-214;
  * `onColumnNotFound`     — "列不存在" (ON column absent), lines 218-223;
  * `numericTypeMismatch`  — "类型不匹配" (integer column vs non-numeric
                             string), lines 253-263;
  * `stringTypeMismatch`   — "类型不匹配" (character column vs non-string),
                             lines 266-275;
  * `nullComparison`       — "空值比较错误", lines 284-290;
  * `misusedHaving`        — "误用HAVING", lines 300-308;
  * `illegalHavingColumn`  — "非法HAVING列", lines 344-350;
  * `tableNotFound`        — "表不存在", lines 399-406;
  * `colNotFound`          — "列不存在" (global existence), lines 408-415. -/
inductive Diag where
  | parseDiag (msg : String)
  | missingFrom
  | missingGroupBy
  | incompleteGroupBy (missing : List String)
  | missingJoinCondition (joinKind : String)
  | usingColumnNotFound (col : String) (joined : List String)
  | usingJoinError (col : String) (onlyTable : String)
  | onUnknownTable (tbl : String) (joined : List String)
  | onColumnNotFound (tbl : String) (col : String)
  | numericTypeMismatch (col : String) (litVal : String)
  | stringTypeMismatch (col : String)
  | nullComparison
  | misusedHaving
  | illegalHavingColumn (fullName : String)
  | tableNotFound (tbl : String)
  | colNotFound (col : String)
deriving Repr, DecidableEq

/-- The result dictionary `{"is_valid": ..., "errors": [...]}` (the
`"suggestions"` entry is initialised to `[]` at line 56 and never touched
afterwards, so it is omitted). -/
structure VResult where
  is_valid : Bool
  errors : List Diag
deriving Repr, DecidableEq

/-- The source's only mutation pattern on the result (every error site):
`result["is_valid"] = False` followed by `result["errors"].append(d)`. -/
def addDiag (r : VResult) (d : Diag) : VResult :=
  ⟨false, r.errors ++ [d]⟩

/-- Apply a rule's emitted diagnostics to the threaded result, one `addDiag`
per append site, in emission order. -/
def applyDiags (r : VResult) (ds : List Diag) : VResult :=
  ds.foldl addDiag r

/-! ## Rule R1 — `_validate_select_statement` (lines 82-129) -/

/-- The name form `f"\x7bcol.table\x7d.\x7bcol.name\x7d" if col.table else col.name` (Python empty
string is falsy); lines 117-118 and 341. -/
def colQualName (t n : String) : String :=
  if t ≠ "" then t ++ ("." : String) ++ n else n

/-- The name a `Column` select/GROUP BY item contributes to the comparison
sets at lines 117-118 (only ever applied to `Expr.column` items). -/
def Expr.qualName : Expr → String
  | .column t n => colQualName t n
  | _ => ""

/-- Model of `list(self.parsed.find_all(exp.AggFunc))` (line 93): aggregate calls
anywhere in the statement tree.  Only its truthiness is used by the source. -/
def SelectStmt.allAggs (s : SelectStmt) : List Expr :=
  findAggsList s.expressions
    ++ findAggsList (s.joins.filterMap JoinClause.onCond)
    ++ findAggsList s.whereCond.toList
    ++ findAggsList (s.groupExprs.getD [])
    ++ findAggsList s.havingCond.toList

/-- Diagnostics appended by `_validate_select_statement`, in order:
missing FROM (lines 85-91), aggregate + plain column without GROUP BY
(lines 93-113), then select columns missing from GROUP BY (lines 115-128).
`selected_columns` keeps the select items that are `exp.Column`; the parent
of a top-level select item is the `Select` node, never an `AggFunc`, so the
`not isinstance(e.parent, exp.AggFunc)` conjunct at line 96 is always true
there.  Python set objects are modelled as deduplicated lists; the set
difference at line 121 keeps the select-list order (CPython iterates a string
set in an unspecified order, and only membership and emptiness matter). -/
def validateSelectDiags (s : SelectStmt) : List Diag :=
  let d1 : List Diag := if s.fromTables.isNone then [Diag.missingFrom] else []
  let aggregates := s.allAggs
  let selected_columns := s.expressions.filter Expr.isColumn
  let d2 : List Diag :=
    if !aggregates.isEmpty && !selected_columns.isEmpty && s.groupExprs.isNone
    then [Diag.missingGroupBy] else []
  let d3 : List Diag :=
    if s.groupExprs.isSome && !selected_columns.isEmpty then
      let group_by_columns := (s.groupExprs.getD []).filter Expr.isColumn
      let select_col_names := (selected_columns.map Expr.qualName).eraseDups
      let group_by_col_names := (group_by_columns.map Expr.qualName).eraseDups
      let missing_columns :=
        select_col_names.filter (fun n => !group_by_col_names.contains n)
      if !missing_columns.isEmpty then [Diag.incompleteGroupBy missing_columns]
      else []
    else []
  d1 ++ d2 ++ d3

/-! ## Rule R2 — `_validate_joins` (lines 131-224) -/

/-- One `{"name": ..., "alias": ...}` entry of `base_tables` / `join_tables`. -/
structure TableInfo where
  name : String
  aliasName : String
deriving Repr, DecidableEq

/-- Model of `join.alias_or_name` (lines 147, 161): sqlglot delegates to the joined
table — its alias when present, otherwise its name (`hasattr(join,
'alias_or_name')` holds, so the `else` arms are dead). -/
def joinAliasOrName (j : JoinClause) : String :=
  if j.this.aliasTxt ≠ "" then j.this.aliasTxt else j.this.name

/-- Model of `base_tables` (lines 135-143): for every table of the FROM clause,
`{"name": table_name, "alias": alias or table_name}`. -/
def baseTablesOf (s : SelectStmt) : List TableInfo :=
  match s.fromTables with
  | none => []
  | some ts =>
      ts.map (fun t =>
        ⟨t.name, if t.aliasTxt ≠ "" then t.aliasTxt else t.name⟩)

/-- Model of `table_aliases` (lines 136-149): alias → real table from the FROM clause,
then overwritten/extended by every JOIN in order (Python dict semantics). -/
def tableAliasesOf (s : SelectStmt) : List (String × String) :=
  let m := (baseTablesOf s).foldl
    (fun m t => dictInsert m t.aliasName t.name) []
  s.joins.foldl (fun m j => dictInsert m (joinAliasOrName j) j.this.name) m

/-- Python truthiness of `join.args.get("using")`: `None` and `[]` are both
falsy (lines 163, 172). -/
def usingTruthy : Option (List String) → Bool
  | none => false
  | some l => !l.isEmpty

/-- Model of `join_tables` for one JOIN (lines 156-161): a fresh list, extended with
`base_tables` when the latter is non-empty (the `if not join_tables` guard at
line 158 is always true since the list was just created), then the joined
table's own entry. -/
def joinTablesFor (base : List TableInfo) (j : JoinClause) : List TableInfo :=
  let join_tables : List TableInfo := []
  let join_tables :=
    if join_tables.isEmpty && !base.isEmpty then join_tables ++ base
    else join_tables
  join_tables ++ [⟨j.this.name, joinAliasOrName j⟩]

/-- The USING-clause sub-check for a single column (lines 173-194):
`valid_tables` collects the aliases of the joined tables whose catalog entry
exists and contains the column; no table ⇒ "列不存在", exactly one ⇒
"JOIN 错误", two or more ⇒ nothing. -/
def usingColDiags (md : Catalog) (join_tables : List TableInfo)
    (col_name : String) : List Diag :=
  let valid_tables :=
    (join_tables.filter
      (fun t => catHasTable md t.name && tableHasCol md t.name col_name)).map
      TableInfo.aliasName
  match valid_tables with
  | [] => [Diag.usingColumnNotFound col_name
            (join_tables.map TableInfo.aliasName)]
  | a :: rest =>
      if (a :: rest).length < 2 then [Diag.usingJoinError col_name a]
      else []

/-- The `real_table` resolution for an ON-clause column (lines 202-204): look the
qualifier up in `table_aliases`, keeping it unchanged when absent. -/
def aliasResolve (aliases : List (String × String)) (t : String) : String :=
  match aliases.lookup t with
  | some rt => rt
  | none => t

/-- The ON-clause sub-check for a single column reference (lines 198-223):
resolve the qualifier, require the resolved table to be among the joined
tables ("对象不存在" otherwise), then require the column to exist in the
resolved table's catalog entry ("列不存在" otherwise). -/
def onColDiags (md : Catalog) (aliases : List (String × String))
    (join_tables : List TableInfo) (col : String × String × Bool) :
    List Diag :=
  let col_table := col.1
  let col_name := col.2.1
  let real_table := aliasResolve aliases col_table
  let table_exists := join_tables.any (fun t => t.name = real_table)
  if !table_exists then
    [Diag.onUnknownTable col_table (join_tables.map TableInfo.aliasName)]
  else if catHasTable md real_table && tableHasCol md real_table col_name then
    []
  else
    [Diag.onColumnNotFound real_table col_name]

/-- Diagnostics for one JOIN (loop body, lines 150-223): no ON and no USING
⇒ "JOIN 错误" and `continue`; a truthy USING list is checked column by
column and then `continue`s (an ON clause present alongside USING is not
examined); otherwise the ON clause's column references are checked. -/
def joinDiags (md : Catalog) (base : List TableInfo)
    (aliases : List (String × String)) (j : JoinClause) : List Diag :=
  let join_tables := joinTablesFor base j
  if j.onCond.isNone && !usingTruthy j.usingCols then
    [Diag.missingJoinCondition j.kind.toUpper]
  else if usingTruthy j.usingCols then
    (j.usingCols.getD []).flatMap (usingColDiags md join_tables)
  else
    match j.onCond with
    | some cond =>
        (cond.findColumnsF false).flatMap (onColDiags md aliases join_tables)
    | none => []

/-- Diagnostics appended by `_validate_joins` (lines 131-224): build
`base_tables` and `table_aliases`, then process every JOIN in source order. -/
def validateJoinsDiags (md : Catalog) (s : SelectStmt) : List Diag :=
  let base := baseTablesOf s
  let aliases := tableAliasesOf s
  s.joins.flatMap (joinDiags md base aliases)

/-! ## Rule R3 — `_validate_where` (lines 227-292) -/

/-- Model of `column_types` (lines 232-237): the catalog flattened across all tables
into `column name → declared type`; a column name appearing in several tables
keeps the *last* table's type (dict-comprehension overwrite). -/
def columnTypesOf (md : Catalog) : List (String × String) :=
  md.foldl
    (fun acc t => t.2.foldl (fun acc c => dictInsert acc c.1 c.2) acc) []

/-- Python `s.replace('.', '', 1)` (line 256): drop the first `.` only. -/
def pyDropFirstDot : List Char → List Char
  | [] => []
  | c :: cs => if c = '.' then cs else c :: pyDropFirstDot cs

/-- Python `str.isdigit` restricted to the ASCII digits that occur in SQL
literal texts: non-empty and all digits. -/
def pyIsDigit (s : String) : Bool :=
  !s.isEmpty && s.all Char.isDigit

/-- sqlglot's `Expression.type` (read at lines 284 and 289) is the inferred
data-type annotation `self._type`, which `parse_one` never sets; on every
node of a freshly parsed tree it is `None`.  It is *not* the operator name:
no sqlglot attribute ever yields the strings `"IS"` / `"IS NOT"` here. -/
def Expr.typeAttr : Expr → Option String := fun _ => none

/-- The guard `condition.type not in ["IS", "IS NOT"]` (line 284).  Since
`condition.type` is `None`, the Python membership test against a list of
strings is always `True`. -/
def typeAttrNotIsForm (e : Expr) : Bool :=
  match e.typeAttr with
  | none => true
  | some s => s ≠ "IS" && s ≠ "IS NOT"

/-- Loop body of `_validate_where` for a single node yielded by
`where_clause.find_all(exp.Binary)` (lines 239-290): the column-vs-literal
type check (only when the left operand is an `exp.Column` and the right an
`exp.Literal`; a column name absent from the flattened `column_types` is
skipped), then the null-comparison check on the right operand. -/
def whereBinDiags (column_types : List (String × String)) (cond : Expr) :
    List Diag :=
  match cond with
  | .binary op left right =>
      let typeDiags : List Diag :=
        match left, right with
        | .column _ lname, .lit is_string litval =>
            (match column_types.lookup lname with
             | none => []
             | some column_type =>
                 if column_type.startsWith ("integer") && is_string
                    && !pyIsDigit ⟨pyDropFirstDot litval.toList⟩ then
                   [Diag.numericTypeMismatch lname litval]
                 else if column_type.startsWith ("character") && !is_string
                 then
                   [Diag.stringTypeMismatch lname]
                 else [])
        | _, _ => []
      let is_null_value : Bool :=
        match right with
        | .nullLit => true
        | .ident n => n.toUpper = "NULL"
        | _ => false
      let nullDiags : List Diag :=
        if is_null_value && typeAttrNotIsForm (.binary op left right) then
          [Diag.nullComparison]
        else []
      typeDiags ++ nullDiags
  | _ => []

/-- Diagnostics appended by `_validate_where` (lines 227-292): nothing
without a WHERE clause, else every binary node of the condition in
`find_all` order. -/
def validateWhereDiags (md : Catalog) (s : SelectStmt) : List Diag :=
  match s.whereCond with
  | none => []
  | some w => (w.findBinaries).flatMap (whereBinDiags (columnTypesOf md))

/-! ## Rule R4 — `_validate_having` (lines 294-351) -/

/-- Model of `str(expr)`: sqlglot renders the expression back to SQL text.  Only the
`else` branch at line 334 uses it (non-alias, non-column, non-aggregate
select items); the rendering below follows sqlglot's output shape for those
nodes. -/
def BinOp.sqlText : BinOp → String
  | .eq => "="
  | .neq => "<>"
  | .lt => "<"
  | .gt => ">"
  | .le => "<="
  | .ge => ">="
  | .isOp => "IS"
  | .andOp => "AND"
  | .orOp => "OR"
  | .add => "+"
  | .sub => "-"

mutual

def Expr.sqlText : Expr → String
  | .column t n => colQualName t n
  | .lit true v => ("\x27" : String) ++ v ++ ("\x27" : String)
  | .lit false v => v
  | .nullLit => "NULL"
  | .ident n => n
  | .star => "*"
  | .binary op l r =>
      l.sqlText ++ (" " : String) ++ op.sqlText ++ (" " : String) ++ r.sqlText
  | .aggCall f args => f ++ ("(" : String) ++ sqlTextList args ++ (")" : String)
  | .aliased t a => t.sqlText ++ (" AS " : String) ++ a

def sqlTextList : List Expr → String
  | [] => ""
  | [e] => e.sqlText
  | e :: es => e.sqlText ++ (", " : String) ++ sqlTextList es

end

/-- What one select-list expression adds to the `select_columns` set
(lines 312-334): an `exp.Alias` contributes its alias, plus — when it wraps a
column — the column's bare name and, for a truthy table qualifier, its
qualified name; a bare `exp.Column` contributes its bare and (qualified-case)
dotted names; an `exp.AggFunc` contributes nothing; anything else contributes
its alias if truthy, otherwise its rendered text (a non-`Alias` node's
`.alias` is `""`, hence falsy, so the rendered text). -/
def selectColumnContrib : Expr → List String
  | .aliased inner a =>
      [a] ++
        (match inner with
         | .column t n => [n] ++ (if t ≠ "" then [t ++ ("." : String) ++ n] else [])
         | _ => [])
  | .column t n => [n] ++ (if t ≠ "" then [t ++ ("." : String) ++ n] else [])
  | .aggCall _ _ => []
  | other => [other.sqlText]

/-- The HAVING-column scan (lines 336-350) against the *current* state of
`select_columns`: every column of the HAVING clause whose direct parent is
not an aggregate call and whose qualified and bare names are both absent from
the set yields "非法HAVING列". -/
def havingColCheckDiags (having_cols : List (String × String × Bool))
    (select_columns : List String) : List Diag :=
  having_cols.flatMap (fun c =>
    if c.2.2 then []
    else
      let full_name := colQualName c.1 c.2.1
      let simple_name := c.2.1
      if select_columns.contains full_name
         || select_columns.contains simple_name then []
      else [Diag.illegalHavingColumn full_name])

/-- One iteration of the `for expr in self.parsed.selects:` loop
(lines 311-350) on the state (`select_columns`, diagnostics so far): extend
`select_columns` with the expression's contribution, then — because the
HAVING-column scan is indented inside this loop — run the scan against the
extended set. -/
def havingFoldStep (having_cols : List (String × String × Bool))
    (acc : List String × List Diag) (e : Expr) : List String × List Diag :=
  let sc := acc.1 ++ selectColumnContrib e
  (sc, acc.2 ++ havingColCheckDiags having_cols sc)

/-- Diagnostics appended by `_validate_having` (lines 294-351): nothing
without a HAVING clause; "误用HAVING" when there is no GROUP BY and the
HAVING clause holds no aggregate (lines 299-308); then the loop over
`parsed.selects`.  NOTE the source's indentation: the HAVING-column scan
(lines 335-350, comment "3.") sits *inside* the `for expr in
self.parsed.selects:` loop of line 311, so it runs once per select-list
expression, each time against the `select_columns` set built so far. -/
def validateHavingDiags (s : SelectStmt) : List Diag :=
  match s.havingCond with
  | none => []
  | some hv =>
      let d1 : List Diag :=
        if s.groupExprs.isNone then
          if (hv.findAggs).isEmpty then [Diag.misusedHaving] else []
        else []
      (s.expressions.foldl (havingFoldStep (hv.findColumnsF false))
        ([], d1)).2

/-! ## Rule R5 — `_extract_tables_and_columns` / `_validate_tables_and_columns`
(lines 353-416) -/

/-- The `tables` list before deduplication (lines 358-373): FROM-clause tables then
joined tables, by real name. -/
def extractTables (s : SelectStmt) : List String :=
  ((s.fromTables.getD []).map TableRef.name) ++ (s.joins.map (·.this.name))

/-- The `columns` list before deduplication (lines 374-377):
`self.parsed.find_all(exp.Column)` over the whole statement.  `USING`
identifiers are `exp.Identifier` nodes, not `exp.Column`, so they are not
collected. -/
def extractColumns (s : SelectStmt) : List String :=
  ((findColumnsListF' s.expressions)
    ++ (findColumnsListF' (s.joins.filterMap JoinClause.onCond))
    ++ (findColumnsListF' s.whereCond.toList)
    ++ (findColumnsListF' (s.groupExprs.getD []))
    ++ (findColumnsListF' s.havingCond.toList)).map (fun c => c.2.1)
where
  findColumnsListF' (l : List Expr) : List (String × String × Bool) :=
    l.flatMap (Expr.findColumnsF false)

/-- Diagnostics appended by `_validate_tables_and_columns` (lines 387-416):
every de-duplicated table name absent from the catalog, then every
de-duplicated column name absent from the union of all catalog columns.
`list(set(...))` content is exact; its iteration order is unspecified in
CPython and modelled as first-occurrence order; only claims insensitive to
that order are stated about this rule. -/
def validateTablesDiags (md : Catalog) (s : SelectStmt) : List Diag :=
  let tables := (extractTables s).eraseDups
  let columns := (extractColumns s).eraseDups
  let all_columns := (md.flatMap (fun t => t.2.map Prod.fst)).eraseDups
  (tables.filterMap (fun t =>
      if !catHasTable md t then some (Diag.tableNotFound t) else none))
    ++ (columns.filterMap (fun c =>
      if !all_columns.contains c then some (Diag.colNotFound c) else none))

/-! ## `validate` (lines 53-80) -/

/-- The outcome of `sqlglot.parse_one(query, dialect)` at line 59 for a
query text: a parsed `exp.Select`, or a raised `ParseError` with its message.
(The model covers the `SELECT` statements the validator's rules address.) -/
inductive ParseOutcome where
  | parsed (stmt : SelectStmt)
  | parseFailed (msg : String)

/-- The `AttributeError` text raised by `self.parsed.args` when
`self.parsed` is `None`. -/
def noneAttrError : String :=
  "AttributeError: NoneType object has no attribute args"

/-- The result of a `validate` call whose parse succeeded: rules R1-R4 run
unconditionally, R5 only when the catalog is non-empty (line 77). -/
def validateStmtResult (md : Catalog) (s : SelectStmt) : VResult :=
  let r0 : VResult := ⟨true, []⟩
  let r1 := applyDiags r0 (validateSelectDiags s)
  let r2 := applyDiags r1 (validateJoinsDiags md s)
  let r3 := applyDiags r2 (validateWhereDiags md s)
  let r4 := applyDiags r3 (validateHavingDiags s)
  if !md.isEmpty then applyDiags r4 (validateTablesDiags md s) else r4

/-- Model of `validate(query)` on a *fresh* validator instance (`self.parsed = None`
from `__init__`), as a function of the parse outcome.  On `ParseError` the
handler at lines 60-66 records the "语法错误" diagnostic, but execution then
falls through: step 2's `isinstance(self.parsed, exp.Select)` is `False`
(skipped), and step 3 `self._validate_joins(result)` evaluates
`self.parsed.args` with `self.parsed` still `None`, so an `AttributeError`
propagates out of `validate` and the result dictionary is lost. -/
def validate (md : Catalog) (p : ParseOutcome) : Except String VResult :=
  match p with
  | .parsed s => .ok (validateStmtResult md s)
  | .parseFailed m =>
      let _result := addDiag ⟨true, []⟩ (Diag.parseDiag m)
      .error noneAttrError

/-! ## Concrete queries and catalogs used as test inputs -/

/-- Catalog `{a: {x}, b: {x, col}, c: {col}}`: column `x` is shared by the
FROM table and the first joined table; `col` is shared by the two *joined*
tables only. -/
def exCatalog3 : Catalog :=
  [("a", [("x", "integer")]),
   ("b", [("x", "integer"), ("col", "integer")]),
   ("c", [("col", "integer")])]

/-- Clause `JOIN b USING (x)`. -/
def exJoinB : JoinClause := ⟨⟨"b", ""⟩, "", none, some ["x"]⟩

/-- Clause `JOIN c USING (col)`. -/
def exJoinC : JoinClause := ⟨⟨"c", ""⟩, "", none, some ["col"]⟩

/-- Query `SELECT * FROM a JOIN b USING (x) JOIN c USING (col)`. -/
def exStmt3 : SelectStmt :=
  { expressions := [.star]
    fromTables := some [⟨"a", ""⟩]
    joins := [exJoinB, exJoinC]
    whereCond := none
    groupExprs := none
    havingCond := none }

/-- Query `SELECT * FROM a JOIN b USING (x)`. -/
def exStmt4 : SelectStmt :=
  { expressions := [.star]
    fromTables := some [⟨"a", ""⟩]
    joins := [exJoinB]
    whereCond := none
    groupExprs := none
    havingCond := none }

/-- Query `SELECT user_id FROM users WHERE e_mail IS NULL`: sqlglot parses the
condition as `Is(this=Column(e_mail), expression=Null())`, an `exp.Binary`. -/
def exStmtIsNull : SelectStmt :=
  { expressions := [.column ("") ("user_id")]
    fromTables := some [⟨"users", ""⟩]
    joins := []
    whereCond := some (.binary .isOp (.column ("") ("e_mail")) .nullLit)
    groupExprs := none
    havingCond := none }

/-- Query `SELECT user_id, COUNT(*) FROM users GROUP BY user_id HAVING
phone_num > 0` (the spec's own example scenario 5). -/
def exStmtHaving : SelectStmt :=
  { expressions := [.column ("") ("user_id"), .aggCall ("COUNT") [.star]]
    fromTables := some [⟨"users", ""⟩]
    joins := []
    whereCond := none
    groupExprs := some [.column ("") ("user_id")]
    havingCond := some (.binary .gt (.column ("") ("phone_num")) (.lit false ("0"))) }

/-- Query `SELECT COUNT(*), user_id FROM users GROUP BY user_id HAVING
user_id > 0`: the HAVING column *is* in the select list, exposed by the
second select item. -/
def exStmtHaving2 : SelectStmt :=
  { expressions := [.aggCall ("COUNT") [.star], .column ("") ("user_id")]
    fromTables := some [⟨"users", ""⟩]
    joins := []
    whereCond := none
    groupExprs := some [.column ("") ("user_id")]
    havingCond := some (.binary .gt (.column ("") ("user_id")) (.lit false ("0"))) }

/-- Query `SELECT user_id, COUNT(*) FROM users` — aggregate plus plain column,
no GROUP BY. -/
def exStmt9 : SelectStmt :=
  { expressions := [.column ("") ("user_id"), .aggCall ("COUNT") [.star]]
    fromTables := some [⟨"users", ""⟩]
    joins := []
    whereCond := none
    groupExprs := none
    havingCond := none }

/-- Clause `LEFT JOIN b` with neither ON nor USING. -/
def exJoinNoCond : JoinClause := ⟨⟨"b", ""⟩, "left", none, none⟩

/-- Catalog `{t1: {k, solo}, t2: {k}}`: `k` is in both tables, `solo` in
exactly one, `nope` in none. -/
def exCatalog6 : Catalog :=
  [("t1", [("k", "integer"), ("solo", "integer")]),
   ("t2", [("k", "integer")])]

/-- The joined tables of a `t1 JOIN t2` step. -/
def exJts6 : List TableInfo := [⟨"t1", "t1"⟩, ⟨"t2", "t2"⟩]

/-! ## Result-threading infrastructure lemmas -/

theorem applyDiags_errors (ds : List Diag) :
    ∀ r : VResult, (applyDiags r ds).errors = r.errors ++ ds := by
  induction ds with
  | nil => intro r; simp [applyDiags]
  | cons d ds ih =>
      intro r
      have h : applyDiags r (d :: ds) = applyDiags (addDiag r d) ds := rfl
      rw [h, ih]
      simp [addDiag]

theorem applyDiags_is_valid (ds : List Diag) :
    ∀ r : VResult, (applyDiags r ds).is_valid = (r.is_valid && ds.isEmpty) := by
  induction ds with
  | nil => intro r; simp [applyDiags]
  | cons d ds ih =>
      intro r
      have h : applyDiags r (d :: ds) = applyDiags (addDiag r d) ds := rfl
      rw [h, ih]
      simp [addDiag]

/-- The final error list is the concatenation of the five rules' emissions,
in rule order. -/
theorem validateStmtResult_errors (md : Catalog) (s : SelectStmt) :
    (validateStmtResult md s).errors =
      validateSelectDiags s ++ validateJoinsDiags md s
        ++ validateWhereDiags md s ++ validateHavingDiags s
        ++ (if !md.isEmpty then validateTablesDiags md s else []) := by
  unfold validateStmtResult
  cases h : md.isEmpty <;> simp [h, applyDiags_errors]

/-- The final validity flag records exactly whether any rule emitted a
diagnostic. -/
theorem validateStmtResult_is_valid (md : Catalog) (s : SelectStmt) :
    (validateStmtResult md s).is_valid
      = (validateStmtResult md s).errors.isEmpty := by
  have hemp : ∀ (l l' : List Diag), (l ++ l').isEmpty = (l.isEmpty && l'.isEmpty) := by
    intro l l'; cases l <;> simp
  unfold validateStmtResult
  cases h : md.isEmpty <;>
    simp [h, applyDiags_errors, applyDiags_is_valid, hemp, Bool.and_assoc]

/-! ## Which diagnostic kinds each rule can emit -/

theorem not_missingGroupBy_mem_usingColDiags (md : Catalog)
    (jts : List TableInfo) (c : String) :
    Diag.missingGroupBy ∉ usingColDiags md jts c := by
  simp only [usingColDiags]
  split
  · simp
  · split <;> simp

theorem not_missingGroupBy_mem_onColDiags (md : Catalog)
    (aliases : List (String × String)) (jts : List TableInfo)
    (col : String × String × Bool) :
    Diag.missingGroupBy ∉ onColDiags md aliases jts col := by
  simp only [onColDiags]
  split
  · simp
  · split <;> simp

theorem not_missingGroupBy_mem_joinDiags (md : Catalog)
    (base : List TableInfo) (aliases : List (String × String))
    (j : JoinClause) :
    Diag.missingGroupBy ∉ joinDiags md base aliases j := by
  simp only [joinDiags]
  split
  · simp
  · split
    · intro h
      rcases List.mem_flatMap.mp h with ⟨c, _, hc⟩
      exact not_missingGroupBy_mem_usingColDiags md _ c hc
    · split
      · intro h
        rcases List.mem_flatMap.mp h with ⟨c, _, hc⟩
        exact not_missingGroupBy_mem_onColDiags md _ _ c hc
      · simp

theorem not_missingGroupBy_mem_validateJoinsDiags (md : Catalog)
    (s : SelectStmt) :
    Diag.missingGroupBy ∉ validateJoinsDiags md s := by
  simp only [validateJoinsDiags]
  intro h
  rcases List.mem_flatMap.mp h with ⟨j, _, hj⟩
  exact not_missingGroupBy_mem_joinDiags md _ _ j hj

theorem not_missingGroupBy_mem_whereBinDiags (ct : List (String × String))
    (cond : Expr) :
    Diag.missingGroupBy ∉ whereBinDiags ct cond := by
  simp only [whereBinDiags]
  split
  · intro h
    rcases List.mem_append.mp h with h | h
    · revert h
      split
      · split
        · simp
        · split
          · simp
          · split <;> simp
      · simp
    · revert h
      split <;> simp
  · simp

theorem not_missingGroupBy_mem_validateWhereDiags (md : Catalog)
    (s : SelectStmt) :
    Diag.missingGroupBy ∉ validateWhereDiags md s := by
  simp only [validateWhereDiags]
  split
  · simp
  · intro h
    rcases List.mem_flatMap.mp h with ⟨c, _, hc⟩
    exact not_missingGroupBy_mem_whereBinDiags _ c hc

theorem not_missingGroupBy_mem_havingColCheckDiags
    (hc : List (String × String × Bool)) (sc : List String) :
    Diag.missingGroupBy ∉ havingColCheckDiags hc sc := by
  simp only [havingColCheckDiags]
  intro h
  rcases List.mem_flatMap.mp h with ⟨c, _, hmem⟩
  revert hmem
  split
  · simp
  · split <;> simp

theorem having_fold_no_missingGroupBy
    (hcols : List (String × String × Bool)) (l : List Expr) :
    ∀ acc : List String × List Diag, Diag.missingGroupBy ∉ acc.2 →
      Diag.missingGroupBy ∉ (l.foldl (havingFoldStep hcols) acc).2 := by
  induction l with
  | nil => exact fun _ h => h
  | cons e es ih =>
      intro acc hacc
      apply ih
      simp only [havingFoldStep]
      intro hmem
      rcases List.mem_append.mp hmem with h | h
      · exact hacc h
      · exact not_missingGroupBy_mem_havingColCheckDiags _ _ h

theorem not_missingGroupBy_mem_validateHavingDiags (s : SelectStmt) :
    Diag.missingGroupBy ∉ validateHavingDiags s := by
  simp only [validateHavingDiags]
  split
  · simp
  · apply having_fold_no_missingGroupBy
    split
    · split <;> simp
    · simp

theorem not_missingGroupBy_mem_validateTablesDiags (md : Catalog)
    (s : SelectStmt) :
    Diag.missingGroupBy ∉ validateTablesDiags md s := by
  simp only [validateTablesDiags]
  intro h
  rcases List.mem_append.mp h with h | h
  · rcases List.mem_filterMap.mp h with ⟨t, _, ht⟩
    revert ht; split <;> simp
  · rcases List.mem_filterMap.mp h with ⟨c, _, hcm⟩
    revert hcm; split <;> simp

/-! ## Claim theorems -/

/-- C1: the claim says a failed parse yields a `ValidationResult` holding the
single `SyntaxError` diagnostic and never propagates an exception.  In the
code, the `ParseError` handler records that diagnostic, but control then
reaches `self._validate_joins(result)`, which dereferences
`self.parsed.args` while `self.parsed` is still `None` on a fresh validator:
an `AttributeError` escapes `validate` for *every* catalog state and every
unparseable input, and the result dictionary is lost. -/
theorem claim1_parse_failure_raises (md : Catalog) (m : String) :
    validate md (ParseOutcome.parseFailed m) = Except.error noneAttrError :=
  rfl

/-- C2: the claim says an `IS`/`IS NOT` comparison against NULL never
produces `NullComparisonError`.  The code guards the diagnostic with
`condition.type not in ["IS", "IS NOT"]`, but `condition.type` is sqlglot's
data-type annotation (`None` on every parsed node), not the operator, so the
guard is always true: `WHERE e_mail IS NULL` — parsed as an `exp.Is` binary
node with an `exp.Null` right operand — is itself flagged with
`NullComparisonError`. -/
theorem claim2_is_null_also_flagged :
    validateStmtResult [] exStmtIsNull
      = ⟨false, [Diag.nullComparison]⟩ := by decide

/-- C5 (failing input): for `SELECT user_id, COUNT(*) FROM users GROUP BY
user_id HAVING phone_num > 0` the claim (and the spec's own scenario 5)
expects exactly one `IllegalHavingColumn` for `phone_num`; because the
HAVING-column scan is nested inside the select-list loop, the code emits it
once per select-list expression — twice here. -/
theorem claim5_duplicate_illegal_having_column :
    validateStmtResult [] exStmtHaving
      = ⟨false, [Diag.illegalHavingColumn ("phone_num"),
                 Diag.illegalHavingColumn ("phone_num")]⟩ := by decide

/-- Supporting evidence for C5 (not itself a claim theorem): with
`SELECT COUNT(*), user_id ... HAVING user_id > 0` the HAVING column *is* in
the select-exposed set, yet the first loop iteration checks it against the
partially built set (only `COUNT(*)` processed, which contributes nothing)
and still emits `IllegalHavingColumn` — contradicting the code's own message
"引用了不在 SELECT 列表中的非聚合列". -/
theorem having_column_in_select_still_flagged :
    validateStmtResult [] exStmtHaving2
      = ⟨false, [Diag.illegalHavingColumn ("user_id")]⟩ := by decide

/-- C7: a JOIN with neither an ON clause nor a USING clause yields exactly
the one `MissingJoinCondition` diagnostic for that join — the emitted list
is that singleton, so no USING/ON sub-check (column existence, table
resolution) contributes anything for this join. -/
theorem claim7_missing_join_condition (md : Catalog) (base : List TableInfo)
    (aliases : List (String × String)) (j : JoinClause)
    (hOn : j.onCond = none) (hUse : j.usingCols = none) :
    joinDiags md base aliases j
      = [Diag.missingJoinCondition j.kind.toUpper] := by
  simp [joinDiags, hOn, hUse, usingTruthy]

theorem claim7_witness :
    exJoinNoCond.onCond = none ∧ exJoinNoCond.usingCols = none ∧
      joinDiags [] [] [] exJoinNoCond
        = [Diag.missingJoinCondition (String.toUpper ("left"))] :=
  ⟨rfl, rfl, claim7_missing_join_condition [] [] [] exJoinNoCond rfl rfl⟩

/-- C10: the WHERE-clause type check requires the left operand of a binary
comparison to be an `exp.Column` and the right an `exp.Literal`; a
comparison with the literal on the left and the column on the right produces
no diagnostic at all — in particular no `TypeMismatch` — whatever the
catalog, the operator, the declared column type, and the literal's shape. -/
theorem claim10_literal_left_not_checked (md : Catalog) (op : BinOp)
    (b : Bool) (v t n : String) :
    whereBinDiags (columnTypesOf md)
      (Expr.binary op (Expr.lit b v) (Expr.column t n)) = [] :=
  rfl

/-- C3 (counterexample): in `SELECT * FROM a JOIN b USING (x) JOIN c USING
(col)` with catalog `{a: {x}, b: {x, col}, c: {col}}`, the USING column
`col` of the second JOIN exists in that join's table `c` and in the earlier
join's table `b` (but in no FROM table).  The claim says this counts as
existing in at least two currently-joined tables and yields no diagnostic;
the code's `join_tables` for the second JOIN is only `[a, c]` (FROM tables
plus the join's own table — earlier joins are not accumulated), so `col`
counts once and a `JoinError` is emitted. -/
theorem claim3_counterexample :
    validateStmtResult exCatalog3 exStmt3
      = ⟨false, [Diag.usingJoinError ("col") ("c")]⟩ := by decide

/-- C3 (amended): the JoinTableSet the join-validation rule uses for any
JOIN equals the FROM-clause tables plus that join's own table — tables of
earlier JOINs are *not* accumulated; consequently a USING column present in
the join's own table but in no FROM table counts as existing in exactly one
currently-joined table and yields a `JoinError` diagnostic (even if an
earlier join's table also has the column). -/
theorem claim3_amended_join_table_set (md : Catalog) (s : SelectStmt)
    (j : JoinClause) (cols : List String) (col : String)
    (hmem : j ∈ s.joins)
    (hu : j.usingCols = some cols) (hcol : col ∈ cols)
    (hownT : catHasTable md j.this.name = true)
    (hownC : tableHasCol md j.this.name col = true)
    (hbase : ∀ t ∈ baseTablesOf s,
      (catHasTable md t.name && tableHasCol md t.name col) = false) :
    joinTablesFor (baseTablesOf s) j
        = baseTablesOf s ++ [⟨j.this.name, joinAliasOrName j⟩]
      ∧ Diag.usingJoinError col (joinAliasOrName j)
          ∈ validateJoinsDiags md s := by
  have hjt : joinTablesFor (baseTablesOf s) j
      = baseTablesOf s ++ [⟨j.this.name, joinAliasOrName j⟩] := by
    cases hb : baseTablesOf s <;> simp [joinTablesFor, hb]
  refine ⟨hjt, ?_⟩
  have hfilter : (joinTablesFor (baseTablesOf s) j).filter
      (fun t => catHasTable md t.name && tableHasCol md t.name col)
      = [⟨j.this.name, joinAliasOrName j⟩] := by
    rw [hjt, List.filter_append]
    have h1 : (baseTablesOf s).filter
        (fun t => catHasTable md t.name && tableHasCol md t.name col)
        = [] := by
      apply List.filter_eq_nil_iff.mpr
      intro t ht
      simp [hbase t ht]
    rw [h1]
    simp [hownT, hownC]
  have hused : usingColDiags md (joinTablesFor (baseTablesOf s) j) col
      = [Diag.usingJoinError col (joinAliasOrName j)] := by
    simp [usingColDiags, hfilter]
  have hTruthy : usingTruthy j.usingCols = true := by
    rw [hu]
    cases cols with
    | nil => cases hcol
    | cons a as => simp [usingTruthy]
  have hjd : Diag.usingJoinError col (joinAliasOrName j)
      ∈ joinDiags md (baseTablesOf s) (tableAliasesOf s) j := by
    simp only [joinDiags, hTruthy, Bool.not_true, Bool.and_false,
      Bool.false_eq_true, if_false, if_true]
    rw [hu]
    exact List.mem_flatMap.mpr ⟨col, hcol, by rw [hused]; exact List.mem_singleton.mpr rfl⟩
  have : Diag.usingJoinError col (joinAliasOrName j)
      ∈ s.joins.flatMap (joinDiags md (baseTablesOf s) (tableAliasesOf s)) :=
    List.mem_flatMap.mpr ⟨j, hmem, hjd⟩
  simpa [validateJoinsDiags] using this

theorem claim3_witness :
    joinTablesFor (baseTablesOf exStmt3) exJoinC
        = baseTablesOf exStmt3 ++ [⟨"c", "c"⟩]
      ∧ Diag.usingJoinError ("col") ("c") ∈ validateJoinsDiags exCatalog3 exStmt3 :=
  claim3_amended_join_table_set exCatalog3 exStmt3 exJoinC ["col"] ("col")
    (List.Mem.tail _ (List.Mem.head _)) rfl (List.Mem.head _)
    (by decide) (by decide) (by decide)

/-- C4 (counterexample): with an entirely empty catalog, `SELECT * FROM a
JOIN b USING (x)` makes the USING-column existence sub-check emit
`ColumnNotFound` — the claim says the sub-check is skipped silently and no
diagnostic is produced. -/
theorem claim4_counterexample :
    validateStmtResult [] exStmt4
      = ⟨false, [Diag.usingColumnNotFound ("x") ["a", "b"]]⟩ := by decide

/-- C4 (amended): when metadata for referenced tables is missing, the
USING/ON existence sub-checks do not raise, but they are not skipped either:
a table absent from the catalog merely counts as not containing the column.
With *no* joined table in the catalog, the USING sub-check emits
`ColumnNotFound`; an ON column whose resolved table is among the joined
tables but absent from the catalog also gets `ColumnNotFound` (with the
"no column info" suggestion). -/
theorem claim4_amended_missing_metadata (md : Catalog)
    (jts : List TableInfo) (aliases : List (String × String))
    (colU ct cn : String) (flag : Bool) :
    ((∀ t ∈ jts, catHasTable md t.name = false) →
        usingColDiags md jts colU
          = [Diag.usingColumnNotFound colU (jts.map TableInfo.aliasName)])
      ∧ (∀ rt : String, aliasResolve aliases ct = rt →
          (jts.any (fun t => t.name = rt)) = true →
          catHasTable md rt = false →
          onColDiags md aliases jts (ct, cn, flag)
            = [Diag.onColumnNotFound rt cn]) := by
  constructor
  · intro h
    have hf : jts.filter
        (fun t => catHasTable md t.name && tableHasCol md t.name colU)
        = [] := by
      apply List.filter_eq_nil_iff.mpr
      intro t ht
      simp [h t ht]
    simp [usingColDiags, hf]
  · intro rt hrt hex hcat
    simp [onColDiags, hrt, hex, hcat]

theorem claim4_witness :
    usingColDiags [] [⟨"a", "a"⟩, ⟨"b", "b"⟩] "x"
        = [Diag.usingColumnNotFound ("x") ["a", "b"]]
      ∧ onColDiags [] [("a", "a")] [⟨"a", "a"⟩] (("a"), ("x"), false)
          = [Diag.onColumnNotFound ("a") ("x")] :=
  ⟨(claim4_amended_missing_metadata [] [⟨"a", "a"⟩, ⟨"b", "b"⟩] [("a", "a")]
      ("x") ("a") ("x") false).1 (by decide),
   (claim4_amended_missing_metadata [] [⟨"a", "a"⟩] [("a", "a")]
      ("x") ("a") ("x") false).2 ("a") rfl (by decide) (by decide)⟩

/-- C6: the USING-column sub-check counts the joined tables whose catalog
entry contains the column: zero such tables yields `ColumnNotFound` (with
the joined tables listed), exactly one yields `JoinError` (with that table's
alias) and not `ColumnNotFound`, and two or more yield no diagnostic for
that column. -/
theorem claim6_using_count_trichotomy (md : Catalog) (jts : List TableInfo)
    (col : String) :
    ((jts.countP
        (fun t => catHasTable md t.name && tableHasCol md t.name col)) = 0 →
        usingColDiags md jts col
          = [Diag.usingColumnNotFound col (jts.map TableInfo.aliasName)])
      ∧ ((jts.countP
          (fun t => catHasTable md t.name && tableHasCol md t.name col)) = 1 →
          ∃ a, usingColDiags md jts col = [Diag.usingJoinError col a])
      ∧ (2 ≤ (jts.countP
          (fun t => catHasTable md t.name && tableHasCol md t.name col)) →
          usingColDiags md jts col = []) := by
  have hcp : jts.countP
      (fun t => catHasTable md t.name && tableHasCol md t.name col)
      = (jts.filter
          (fun t => catHasTable md t.name && tableHasCol md t.name col)).length :=
    List.countP_eq_length_filter _ _
  refine ⟨?_, ?_, ?_⟩
  · intro h0
    rw [hcp] at h0
    have hf := List.length_eq_zero.mp h0
    simp [usingColDiags, hf]
  · intro h1
    rw [hcp] at h1
    obtain ⟨a, ha⟩ := List.length_eq_one.mp h1
    exact ⟨a.aliasName, by simp [usingColDiags, ha]⟩
  · intro h2
    rw [hcp] at h2
    rcases hf : jts.filter
        (fun t => catHasTable md t.name && tableHasCol md t.name col)
        with _ | ⟨a, rest⟩
    · rw [hf] at h2; simp at h2
    · rw [hf] at h2
      have hlen : ¬((a.aliasName :: rest.map TableInfo.aliasName).length < 2) := by
        simp only [List.length_cons, List.length_map]
        simp only [List.length_cons] at h2
        omega
      simp only [List.length_cons] at h2
      simp [usingColDiags, hf, hlen]
      omega

theorem claim6_witness :
    usingColDiags exCatalog6 exJts6 ("nope")
        = [Diag.usingColumnNotFound ("nope") ["t1", "t2"]]
      ∧ (∃ a, usingColDiags exCatalog6 exJts6 ("solo")
          = [Diag.usingJoinError ("solo") a])
      ∧ usingColDiags exCatalog6 exJts6 ("k") = [] :=
  ⟨(claim6_using_count_trichotomy exCatalog6 exJts6 ("nope")).1 (by decide),
   (claim6_using_count_trichotomy exCatalog6 exJts6 ("solo")).2.1 (by decide),
   (claim6_using_count_trichotomy exCatalog6 exJts6 ("k")).2.2 (by decide)⟩

/-- C8: every `ValidationResult` that `validate` returns has `is_valid =
false` exactly when its diagnostics list is non-empty: the result starts as
`{"is_valid": True, "errors": []}`, every append site first sets `is_valid`
to `False`, and nothing ever sets it back to `True`. -/
theorem claim8_is_valid_iff_errors (md : Catalog) (p : ParseOutcome)
    (r : VResult) (h : validate md p = Except.ok r) :
    (r.is_valid = false ↔ r.errors ≠ []) := by
  cases p with
  | parseFailed m => simp [validate] at h
  | parsed s =>
      have hr : validateStmtResult md s = r := by
        simpa [validate] using h
      subst hr
      rw [validateStmtResult_is_valid]
      cases h2 : (validateStmtResult md s).errors <;> simp [h2]

theorem claim8_witness :
    ((validateStmtResult [] exStmt9).is_valid = false
      ↔ (validateStmtResult [] exStmt9).errors ≠ []) :=
  claim8_is_valid_iff_errors [] (ParseOutcome.parsed exStmt9)
    (validateStmtResult [] exStmt9) rfl

theorem findAggsList_eq_flatMap (l : List Expr) :
    findAggsList l = l.flatMap Expr.findAggs := by
  induction l with
  | nil => rfl
  | cons e es ih => simp [findAggsList, ih]

/-- C9: a SELECT whose select list holds at least one aggregate call and at
least one plain column item, with no GROUP BY clause, gets the
`MissingGroupBy` diagnostic exactly once in the final result: rule R1 emits
it once (its condition holds: `find_all(exp.AggFunc)` over the statement is
non-empty and `selected_columns` is non-empty), and no other rule can emit
that diagnostic. -/
theorem claim9_missing_group_by_exactly_once (md : Catalog) (s : SelectStmt)
    (h1 : (s.expressions.any (fun e => !(e.findAggs).isEmpty)) = true)
    (h2 : (s.expressions.any Expr.isColumn) = true)
    (h3 : s.groupExprs = none) :
    (validateStmtResult md s).errors.count Diag.missingGroupBy = 1 := by
  obtain ⟨e, he, hne⟩ := List.any_eq_true.mp h1
  have hagg : (SelectStmt.allAggs s).isEmpty = false := by
    have hne' : e.findAggs ≠ [] := by
      intro hnil; rw [hnil] at hne; simp at hne
    obtain ⟨x, hx⟩ := List.exists_mem_of_ne_nil _ hne'
    have hx1 : x ∈ findAggsList s.expressions := by
      rw [findAggsList_eq_flatMap]
      exact List.mem_flatMap.mpr ⟨e, he, hx⟩
    have hx2 : x ∈ SelectStmt.allAggs s := by
      unfold SelectStmt.allAggs
      simp [List.mem_append, hx1]
    cases hl : SelectStmt.allAggs s with
    | nil => rw [hl] at hx2; cases hx2
    | cons a as => rfl
  obtain ⟨ec, hec, hcol⟩ := List.any_eq_true.mp h2
  have hsel : ((s.expressions.filter Expr.isColumn).isEmpty) = false := by
    have hm : ec ∈ s.expressions.filter Expr.isColumn :=
      List.mem_filter.mpr ⟨hec, hcol⟩
    cases hl : s.expressions.filter Expr.isColumn with
    | nil => rw [hl] at hm; cases hm
    | cons a as => rfl
  have hselect : (validateSelectDiags s).count Diag.missingGroupBy = 1 := by
    simp only [validateSelectDiags, hagg, hsel, h3, Option.isNone_none,
      Option.isSome_none, Bool.not_false, Bool.and_self, Bool.and_true,
      Bool.true_and, if_true, Bool.false_eq_true, if_false,
      List.append_nil]
    split <;> decide
  have hj : (validateJoinsDiags md s).count Diag.missingGroupBy = 0 :=
    List.count_eq_zero.mpr (not_missingGroupBy_mem_validateJoinsDiags md s)
  have hw : (validateWhereDiags md s).count Diag.missingGroupBy = 0 :=
    List.count_eq_zero.mpr (not_missingGroupBy_mem_validateWhereDiags md s)
  have hh : (validateHavingDiags s).count Diag.missingGroupBy = 0 :=
    List.count_eq_zero.mpr (not_missingGroupBy_mem_validateHavingDiags s)
  have ht : ((if !md.isEmpty then validateTablesDiags md s else []).count
      Diag.missingGroupBy) = 0 := by
    split
    · exact List.count_eq_zero.mpr
        (not_missingGroupBy_mem_validateTablesDiags md s)
    · rfl
  rw [validateStmtResult_errors]
  simp only [List.count_append]
  rw [hselect, hj, hw, hh, ht]

theorem claim9_witness :
    (validateStmtResult [] exStmt9).errors.count Diag.missingGroupBy = 1 :=
  claim9_missing_group_by_exactly_once [] exStmt9 (by decide) (by decide) rfl

end SmartHomeSQL
